import Mathlib

/-!
Shallow embedding of the weather-probability core in src/data_processor.py
(class NASADataProcessor).

Modelling conventions:
* Python floats are modelled as rationals (ℚ).  The float NaN that pandas
  produces for the mean of an empty series is modelled as the none case of
  Option ℚ; every other value in a probability dictionary is some q.
* A pandas DataFrame with a date column and one value column is a list of
  Entry records (date, value), in row order.
* The historical_data dictionary keyed by the four variable names is a Store
  record with one Option (List Entry) field per variable.
* A Python dict String -> float is an association list built in insertion
  order; List.lookup is dict access.
* The randomness used by the sample-data generators (np.random.normal,
  exponential, weibull, random) and the float functions np.sin / np.pi are
  modelled by an Oracle of uninterpreted draw streams indexed by the row
  number of the generating loop.
-/

/-- Calendar date, as produced by datetime.strptime with format %Y-%m-%d. -/
structure Date where
  year : ℕ
  month : ℕ
  day : ℕ
deriving DecidableEq

/-- Gregorian leap-year rule used by Python's datetime. -/
def isLeapYear (y : ℕ) : Bool :=
  decide ((y % 4 = 0 ∧ y % 100 ≠ 0) ∨ y % 400 = 0)

/-- Length of a month in the proleptic Gregorian calendar. -/
def daysInMonth (y m : ℕ) : ℕ :=
  if m = 2 then (if isLeapYear y then 29 else 28)
  else if m = 4 ∨ m = 6 ∨ m = 9 ∨ m = 11 then 30
  else 31

/-- Day of year (tm_yday / pandas Series.dt.dayofyear): 1 for January 1. -/
def dayOfYear (d : Date) : ℕ :=
  (List.range (d.month - 1)).foldl (fun acc i => acc + daysInMonth d.year (i + 1)) 0 + d.day

/-- Test of an ASCII decimal digit, as matched by the strptime regexes. -/
def isDigitChar (c : Char) : Bool :=
  decide ('0' ≤ c ∧ c ≤ '9')

/-- Numeric value of a digit string (int() on a matched strptime field). -/
def digitsVal (cs : List Char) : ℕ :=
  cs.foldl (fun acc c => 10 * acc + (c.toNat - 48)) 0

/-- Split of a character list at every '-' character; the literal '-'
separators of the %Y-%m-%d format.  Fields never contain '-', so a full
regex match is exactly a split into the right number of parts. -/
def splitDash : List Char → List (List Char)
  | [] => [[]]
  | c :: rest =>
    if c = '-' then [] :: splitDash rest
    else
      match splitDash rest with
      | g :: gs => (c :: g) :: gs
      | [] => [[c]]

/-- Check of one numeric strptime field: all digits, length between 1 and
maxLen, value between lo and hi.  The %Y regex is exactly four digits; the
%m regex accepts 1-12 with one or two digits; the %d regex accepts 1-31
with one or two digits. -/
def fieldOK (cs : List Char) (minLen maxLen lo hi : ℕ) : Bool :=
  cs.all isDigitChar && decide (minLen ≤ cs.length) && decide (cs.length ≤ maxLen)
    && decide (lo ≤ digitsVal cs) && decide (digitsVal cs ≤ hi)

/-- Model of datetime.strptime(target_date, %Y-%m-%d): a full regex match
(four-digit year, month 1-12, day 1-31) followed by the datetime constructor
check that the year is at least 1 and the day fits the month. -/
def parseDate (s : String) : Option Date :=
  match splitDash s.data with
  | [ys, ms, ds] =>
    if fieldOK ys 4 4 0 9999 && fieldOK ms 1 2 1 12 && fieldOK ds 1 2 1 31 then
      if 1 ≤ digitsVal ys ∧ digitsVal ds ≤ daysInMonth (digitsVal ys) (digitsVal ms) then
        some ⟨digitsVal ys, digitsVal ms, digitsVal ds⟩
      else none
    else none
  | _ => none

/-- Row of one variable's DataFrame: a calendar date and a float value. -/
structure Entry where
  date : Date
  value : ℚ
deriving DecidableEq

/-- The historical_data dictionary: one optional daily series per
weather variable.  A none field is a key absent from the dictionary. -/
structure Store where
  temperature : Option (List Entry)
  precipitation : Option (List Entry)
  wind : Option (List Entry)
  humidity : Option (List Entry)
deriving DecidableEq

/-- The empty historical_data dictionary created in __init__. -/
def emptyStore : Store := ⟨none, none, none, none⟩

/-- Number of populated variables: len(self.historical_data). -/
def storeCount (s : Store) : ℕ :=
  (if s.temperature.isSome then 1 else 0) + (if s.precipitation.isSome then 1 else 0)
    + (if s.wind.isSome then 1 else 0) + (if s.humidity.isSome then 1 else 0)

/-- The day-of-year window test of calculate_probabilities: the boolean mask
(series date dayofyear >= day_of_year - 7) & (dayofyear <= day_of_year + 7),
computed with integer arithmetic (the lower bound may be negative). -/
def inWindow (doy : ℕ) (e : Entry) : Bool :=
  decide ((doy : ℤ) - 7 ≤ (dayOfYear e.date : ℤ)) && decide ((dayOfYear e.date : ℤ) ≤ (doy : ℤ) + 7)

/-- Subset of a series selected by the day-of-year window mask. -/
def windowSubset (series : List Entry) (doy : ℕ) : List Entry :=
  series.filter (inWindow doy)

/-- Round-half-to-even integer rounding, the tie rule of Python's round. -/
def roundHalfEven (q : ℚ) : ℤ :=
  if q - Rat.floor q < 1 / 2 then Rat.floor q
  else if 1 / 2 < q - Rat.floor q then Rat.floor q + 1
  else if Rat.floor q % 2 = 0 then Rat.floor q else Rat.floor q + 1

/-- Model of Python round(x, 1): round to one decimal place. -/
def pyRound1 (q : ℚ) : ℚ :=
  (roundHalfEven (10 * q) : ℚ) / 10

/-- Model of (series boolean mask).mean() * 100 on a pandas Series of
entries: the count of rows satisfying the predicate over the row count,
times 100.  Callers guard the empty case. -/
def seriesMeanPct (l : List Entry) (p : Entry → Bool) : ℚ :=
  ((l.countP p : ℕ) : ℚ) / (l.length : ℚ) * 100

/-- Model of pd.merge(temp, humidity, on=date), an inner join by exact
date: for each left row, in order, all right rows with the same date. -/
def mergeOnDate (ts hs : List Entry) : List (Entry × Entry) :=
  ts.bind fun t => (hs.filter fun h => h.date == t.date).map fun h => (t, h)

/-- The simplified heat index column: temperature + 0.05 * (humidity - 50)
per joined row. -/
def heatIndexList (ts hs : List Entry) : List ℚ :=
  (mergeOnDate ts hs).map fun th => th.1.value + 0.05 * (th.2.value - 50)

/-- Model of (heat index mask).mean() * 100, where the mean of an empty
pandas Series is NaN (the none case). -/
def heatMeanPct (l : List ℚ) : Option ℚ :=
  if l.length = 0 then none
  else some (((l.countP fun x => decide (85 < x) : ℕ) : ℚ) / (l.length : ℚ) * 100)

/-- Probability dictionary: association list in insertion order; a none
value is a float NaN bound to the key. -/
abbrev ProbDict := List (String × Option ℚ)

/-- Temperature branch of calculate_probabilities: when the temperature
variable is present and its window subset is nonempty, insert the hot and
cold percentages, each rounded to one decimal. -/
def tempBlock (s : Store) (doy : ℕ) : ProbDict :=
  match s.temperature with
  | none => []
  | some temp_data =>
    if 0 < (windowSubset temp_data doy).length then
      [("hot", some (pyRound1 (seriesMeanPct (windowSubset temp_data doy) fun e => decide (90 < e.value)))),
       ("cold", some (pyRound1 (seriesMeanPct (windowSubset temp_data doy) fun e => decide (e.value < 32))))]
    else []

/-- Precipitation branch: wet percentage for entries above 0.5 inches. -/
def precipBlock (s : Store) (doy : ℕ) : ProbDict :=
  match s.precipitation with
  | none => []
  | some precip_data =>
    if 0 < (windowSubset precip_data doy).length then
      [("wet", some (pyRound1 (seriesMeanPct (windowSubset precip_data doy) fun e => decide (0.5 < e.value))))]
    else []

/-- Wind branch: windy percentage for entries above 15 mph. -/
def windBlock (s : Store) (doy : ℕ) : ProbDict :=
  match s.wind with
  | none => []
  | some wind_data =>
    if 0 < (windowSubset wind_data doy).length then
      [("windy", some (pyRound1 (seriesMeanPct (windowSubset wind_data doy) fun e => decide (15 < e.value))))]
    else []

/-- Comfort branch: requires temperature and humidity both present with
nonempty window subsets; joins them by exact date, computes the heat index
per joined row and the percentage above 85.  When the join is empty the
pandas mean is NaN, round(NaN, 1) is NaN, and the key is bound to NaN. -/
def comfortBlock (s : Store) (doy : ℕ) : ProbDict :=
  match s.temperature, s.humidity with
  | some temp_data, some humidity_data =>
    if 0 < (windowSubset temp_data doy).length ∧ 0 < (windowSubset humidity_data doy).length then
      [("uncomfortable",
        (heatMeanPct (heatIndexList (windowSubset temp_data doy) (windowSubset humidity_data doy))).map pyRound1)]
    else []
  | _, _ => []

/-- The five expected keys, in the order of the final backfill loop. -/
def expected_keys : List String := ["hot", "cold", "wet", "windy", "uncomfortable"]

/-- One step of the final loop: if key not in probabilities, bind it to 0.0. -/
def backfillStep (ps : ProbDict) (key : String) : ProbDict :=
  if (ps.lookup key).isNone then ps ++ [(key, some 0)] else ps

/-- The final loop of calculate_probabilities, ensuring all expected keys
are present (missing ones default to 0.0). -/
def ensureKeys (ps : ProbDict) : ProbDict :=
  expected_keys.foldl backfillStep ps

/-- Body of calculate_probabilities after the target date has been parsed
to a day of year: the four analysis branches in program order, then the
backfill loop. -/
def calcCore (s : Store) (doy : ℕ) : ProbDict :=
  ensureKeys (tempBlock s doy ++ precipBlock s doy ++ windBlock s doy ++ comfortBlock s doy)

/-- The all-zero dictionary returned from the except branch. -/
def defaultProbabilities : ProbDict :=
  [("hot", some 0), ("cold", some 0), ("wet", some 0), ("windy", some 0), ("uncomfortable", some 0)]

/-- calculate_probabilities(lat, lng, target_date).  The try block can only
fail at datetime.strptime (the store is well-typed), and on failure the
except branch returns the all-zero dictionary.  The latitude and longitude
arguments are accepted but never read. -/
def calculate_probabilities (store : Store) (lat lng : ℚ) (target_date : String) : ProbDict :=
  match parseDate target_date with
  | some dt => calcCore store (dayOfYear dt)
  | none => defaultProbabilities

/-- Specification-side hot percentage, following the spec text: 100 times
the fraction of temperature window entries above 90, rounded to one
decimal; 0.0 when the variable is absent or the window subset is empty. -/
def specHot (s : Store) (doy : ℕ) : ℚ :=
  match s.temperature with
  | none => 0
  | some series =>
    if (windowSubset series doy).length = 0 then 0
    else pyRound1 (100 * (((windowSubset series doy).countP fun e => decide (90 < e.value) : ℕ) : ℚ)
      / ((windowSubset series doy).length : ℚ))

/-- Specification-side cold percentage: entries below 32. -/
def specCold (s : Store) (doy : ℕ) : ℚ :=
  match s.temperature with
  | none => 0
  | some series =>
    if (windowSubset series doy).length = 0 then 0
    else pyRound1 (100 * (((windowSubset series doy).countP fun e => decide (e.value < 32) : ℕ) : ℚ)
      / ((windowSubset series doy).length : ℚ))

/-- Specification-side wet percentage: precipitation entries above 0.5. -/
def specWet (s : Store) (doy : ℕ) : ℚ :=
  match s.precipitation with
  | none => 0
  | some series =>
    if (windowSubset series doy).length = 0 then 0
    else pyRound1 (100 * (((windowSubset series doy).countP fun e => decide (0.5 < e.value) : ℕ) : ℚ)
      / ((windowSubset series doy).length : ℚ))

/-- Specification-side windy percentage: wind entries above 15. -/
def specWindy (s : Store) (doy : ℕ) : ℚ :=
  match s.wind with
  | none => 0
  | some series =>
    if (windowSubset series doy).length = 0 then 0
    else pyRound1 (100 * (((windowSubset series doy).countP fun e => decide (15 < e.value) : ℕ) : ℚ)
      / ((windowSubset series doy).length : ℚ))

/-- Specification-side uncomfortable value: some 0 when a variable is
absent or a window subset is empty; NaN (none) when both subsets are
nonempty but the date join is empty; otherwise 100 times the fraction of
joined rows with heat index above 85, rounded to one decimal. -/
def specUnc (s : Store) (doy : ℕ) : Option ℚ :=
  match s.temperature, s.humidity with
  | some t, some h =>
    if (windowSubset t doy).length = 0 ∨ (windowSubset h doy).length = 0 then some 0
    else
      if (heatIndexList (windowSubset t doy) (windowSubset h doy)).length = 0 then none
      else some (pyRound1 (100
        * (((heatIndexList (windowSubset t doy) (windowSubset h doy)).countP fun x => decide (85 < x) : ℕ) : ℚ)
        / ((heatIndexList (windowSubset t doy) (windowSubset h doy)).length : ℚ)))
  | _, _ => some 0

/-- Result of get_historical_trends. -/
structure TrendResult where
  years : List ℕ
  hot_probabilities : List (Option ℚ)
  wet_probabilities : List (Option ℚ)
deriving DecidableEq

/-- get_historical_trends(lat, lng): for each year of range(2015, 2025),
build the sample date year-07-15, invoke calculate_probabilities, and
collect probs.get(hot, 0) and probs.get(wet, 0).  Nothing in the loop can
raise, so the except branch of the source is unreachable. -/
def get_historical_trends (store : Store) (lat lng : ℚ) : TrendResult where
  years := List.range' 2015 10
  hot_probabilities := (List.range' 2015 10).map fun year =>
    ((calculate_probabilities store lat lng (toString year ++ "-07-15")).lookup "hot").getD (some 0)
  wet_probabilities := (List.range' 2015 10).map fun year =>
    ((calculate_probabilities store lat lng (toString year ++ "-07-15")).lookup "wet").getD (some 0)

/-- Uninterpreted model of the floating-point and random primitives used by
the sample-data generators: np.pi and np.sin, and one stream per np.random
call site, indexed by the row number of the generating loop.  Distribution
parameters are passed through so the call sites remain visible. -/
structure Oracle where
  pi : ℚ
  sin : ℚ → ℚ
  temp_noise : ℕ → ℚ → ℚ → ℚ
  precip_exp : ℕ → ℚ → ℚ
  heavy_uniform : ℕ → ℚ
  heavy_exp : ℕ → ℚ → ℚ
  wind_weibull : ℕ → ℚ → ℚ
  humidity_normal : ℕ → ℚ → ℚ → ℚ

/-- Concrete oracle with every draw equal to 0, for concrete runs. -/
def zeroOracle : Oracle where
  pi := 0
  sin := fun _ => 0
  temp_noise := fun _ _ _ => 0
  precip_exp := fun _ _ => 0
  heavy_uniform := fun _ => 0
  heavy_exp := fun _ _ => 0
  wind_weibull := fun _ _ => 0
  humidity_normal := fun _ _ _ => 0

/-- Numeric key giving the calendar order of dates (month below 13 and day
below 100, so the encoding is order-faithful). -/
def dateKey (d : Date) : ℕ :=
  d.year * 10000 + d.month * 100 + d.day

/-- Calendar comparison of dates. -/
def dateLe (a b : Date) : Bool :=
  decide (dateKey a ≤ dateKey b)

/-- Successor day in the Gregorian calendar. -/
def nextDay (d : Date) : Date :=
  if d.day < daysInMonth d.year d.month then ⟨d.year, d.month, d.day + 1⟩
  else if d.month < 12 then ⟨d.year, d.month + 1, 1⟩
  else ⟨d.year + 1, 1, 1⟩

/-- Day enumeration with explicit fuel (both source ranges are below 6000
days). -/
def dateRangeAux : ℕ → Date → Date → List Date
  | 0, _, _ => []
  | fuel + 1, cur, last => if dateLe cur last then cur :: dateRangeAux fuel (nextDay cur) last else []

/-- Model of pd.date_range(start, end, freq=D): every day from start to
end, both endpoints included. -/
def date_range (s e : Date) : List Date :=
  dateRangeAux 6000 s e

/-- The enhanced generator's date range, 2008-01-01 to 2023-12-31. -/
def enhancedDates : List Date :=
  date_range ⟨2008, 1, 1⟩ ⟨2023, 12, 31⟩

/-- The legacy generator's date range, 2010-01-01 to 2024-12-31. -/
def legacyDates : List Date :=
  date_range ⟨2010, 1, 1⟩ ⟨2024, 12, 31⟩

/-- Model of _generate_enhanced_sample_data: seasonal temperature with a
warming trend, four-season exponential precipitation with a 2 percent
heavy-rain chance, three-bucket Weibull wind, and Gaussian humidity clamped
to the interval 15 to 95.  All four variables are assigned. -/
def _generate_enhanced_sample_data (o : Oracle) : Store where
  temperature := some (enhancedDates.enum.map fun p =>
    { date := p.2
      value := (50 + 25 * o.sin (2 * o.pi * ((dayOfYear p.2 : ℚ) - 81) / 365))
        + o.temp_noise p.1 0 8 + ((p.2.year : ℚ) - 2008) * 0.05 })
  precipitation := some (enhancedDates.enum.map fun p =>
    { date := p.2
      value :=
        (if 60 ≤ dayOfYear p.2 ∧ dayOfYear p.2 ≤ 150 then o.precip_exp p.1 0.15
         else if 151 ≤ dayOfYear p.2 ∧ dayOfYear p.2 ≤ 240 then o.precip_exp p.1 0.25
         else if 241 ≤ dayOfYear p.2 ∧ dayOfYear p.2 ≤ 330 then o.precip_exp p.1 0.18
         else o.precip_exp p.1 0.12)
        + (if o.heavy_uniform p.1 < 0.02 then o.heavy_exp p.1 0.5 else 0) })
  wind := some (enhancedDates.enum.map fun p =>
    { date := p.2
      value :=
        if dayOfYear p.2 ≤ 90 ∨ 300 ≤ dayOfYear p.2 then o.wind_weibull p.1 1.8 * 12
        else if 91 ≤ dayOfYear p.2 ∧ dayOfYear p.2 ≤ 180 then o.wind_weibull p.1 1.6 * 10
        else o.wind_weibull p.1 1.5 * 8 })
  humidity := some (enhancedDates.enum.map fun p =>
    { date := p.2
      value := max 15 (min 95
        (if 150 ≤ dayOfYear p.2 ∧ dayOfYear p.2 ≤ 240 then o.humidity_normal p.1 75 8
         else o.humidity_normal p.1 65 12)) })

/-- Model of _generate_sample_data (the legacy generator): simpler seasonal
temperature, month-based precipitation, wind and humidity, humidity clamped
to the interval 10 to 100.  All four variables are assigned. -/
def _generate_sample_data (o : Oracle) : Store where
  temperature := some (legacyDates.enum.map fun p =>
    { date := p.2
      value := (50 + 30 * o.sin (2 * o.pi * ((dayOfYear p.2 : ℚ) - 81) / 365)) + o.temp_noise p.1 0 10 })
  precipitation := some (legacyDates.enum.map fun p =>
    { date := p.2
      value :=
        if p.2.month = 3 ∨ p.2.month = 4 ∨ p.2.month = 5 ∨ p.2.month = 6 then o.precip_exp p.1 0.2
        else o.precip_exp p.1 0.05 })
  wind := some (legacyDates.enum.map fun p =>
    { date := p.2
      value :=
        if p.2.month = 11 ∨ p.2.month = 12 ∨ p.2.month = 1 ∨ p.2.month = 2 then o.wind_weibull p.1 2 * 15
        else o.wind_weibull p.1 2 * 8 })
  humidity := some (legacyDates.enum.map fun p =>
    { date := p.2
      value := max 10 (min 100
        (if p.2.month = 6 ∨ p.2.month = 7 ∨ p.2.month = 8 then o.humidity_normal p.1 75 10
         else o.humidity_normal p.1 60 15)) })

/-- Per-file step of _load_actual_nasa_data.  Each of the four recognized
filename classes dispatches to a stub handler whose body calls a
_generate_sample variable-specific method that is not defined on the class,
so the handler raises AttributeError, caught and logged by its own except
block; the generic branch parses the file with pandas but never assigns to
historical_data.  Every branch therefore leaves the store unchanged. -/
def processFile (hist : Store) (_filename : String) : Store :=
  hist

/-- Model of _load_actual_nasa_data: returns False when no candidate files
exist, otherwise processes each file and reports whether at least one
variable is populated afterwards. -/
def _load_actual_nasa_data (files : List String) (hist : Store) : Store × Bool :=
  if files = [] then (hist, false)
  else (files.foldl processFile hist, decide (0 < storeCount (files.foldl processFile hist)))

/-- Abstract environment of load_nasa_data: whether the data directory
exists, the candidate files found in it, and the randomness oracle. -/
structure LoadEnv where
  dirExists : Bool
  files : List String
  oracle : Oracle

/-- Model of load_nasa_data: a missing data directory triggers the legacy
generator _generate_sample_data; otherwise actual ingestion is attempted
and, when it reports no populated variables, the enhanced generator runs.
The historical_data dictionary starts empty. -/
def load_nasa_data (env : LoadEnv) : Store :=
  if env.dirExists = false then _generate_sample_data env.oracle
  else if (_load_actual_nasa_data env.files emptyStore).2 = false then
    _generate_enhanced_sample_data env.oracle
  else (_load_actual_nasa_data env.files emptyStore).1

/-- Concrete store exhibiting the empty-date-join case: the temperature and
humidity window subsets around mid July are both nonempty, but no exact
date is shared, so the merged frame is empty and its mean is NaN. -/
def storeNaN : Store :=
  { temperature := some [⟨⟨2020, 7, 15⟩, 95⟩], precipitation := none, wind := none,
    humidity := some [⟨⟨2021, 7, 15⟩, 80⟩] }

/-- Concrete store with temperature and precipitation data. -/
def storeB : Store :=
  { temperature := some [⟨⟨2020, 7, 15⟩, 95⟩, ⟨⟨2021, 7, 15⟩, 70⟩],
    precipitation := some [⟨⟨2020, 7, 15⟩, 1⟩], wind := none, humidity := none }

/-- Concrete store with temperature and humidity sharing a date. -/
def storeC : Store :=
  { temperature := some [⟨⟨2020, 7, 15⟩, 95⟩], precipitation := none, wind := none,
    humidity := some [⟨⟨2020, 7, 15⟩, 80⟩] }

/-- Environment with a missing data directory. -/
def envNoDir : LoadEnv := ⟨false, [], zeroOracle⟩

/-- Environment with an existing data directory holding one candidate file. -/
def envWithFiles : LoadEnv := ⟨true, ["gldas_2020.txt"], zeroOracle⟩

/-- First humidity entry generated by the enhanced profile under the zero
oracle: January 1 2008 is outside the summer bucket, and the draw 0 is
clamped up to 15. -/
def enhHumidityHead : Entry :=
  ⟨⟨2008, 1, 1⟩, max 15 (min 95 (zeroOracle.humidity_normal 0 65 12))⟩

/-- First humidity entry generated by the legacy profile under the zero
oracle: January 2010 is not a summer month, and the draw 0 is clamped up
to 10. -/
def legHumidityHead : Entry :=
  ⟨⟨2010, 1, 1⟩, max 10 (min 100 (zeroOracle.humidity_normal 0 60 15))⟩

/-- Validity of a calendar date (what the datetime constructor accepts,
with the month range made explicit). -/
def validDate (d : Date) : Prop :=
  1 ≤ d.month ∧ d.month ≤ 12 ∧ 1 ≤ d.day ∧ d.day ≤ daysInMonth d.year d.month

instance : DecidablePred validDate := fun d => by
  unfold validDate; infer_instance

section Proofs

attribute [local semireducible] Rat.inv Rat.mul Rat.add Rat.sub Rat.ofScientific

lemma ratFloor_eq_floor (q : ℚ) : Rat.floor q = ⌊q⌋ := by
  rw [Rat.floor_def', Rat.floor_def]

lemma roundHalfEven_bounds {q : ℚ} {B : ℤ} (h0 : 0 ≤ q) (hB : q ≤ (B : ℚ)) :
    0 ≤ roundHalfEven q ∧ roundHalfEven q ≤ B := by
  have h1 : (0 : ℤ) ≤ ⌊q⌋ := Int.floor_nonneg.mpr h0
  have h2 : ⌊q⌋ ≤ B := by
    have := Int.floor_le_floor hB
    rwa [Int.floor_intCast] at this
  have hfl : ((⌊q⌋ : ℤ) : ℚ) ≤ q := Int.floor_le q
  unfold roundHalfEven
  rw [ratFloor_eq_floor]
  split
  · exact ⟨h1, h2⟩
  · rename_i hcond
    push_neg at hcond
    have hlt : ⌊q⌋ < B := by
      by_contra hge
      push_neg at hge
      have : B = ⌊q⌋ := le_antisymm hge h2
      subst this
      have : q - ⌊q⌋ < 1 / 2 := by
        have := sub_nonpos.mpr hB
        linarith
      linarith
    split
    · exact ⟨by omega, by omega⟩
    · split
      · exact ⟨h1, h2⟩
      · exact ⟨by omega, by omega⟩

lemma pyRound1_bounds {q : ℚ} (h0 : 0 ≤ q) (h1 : q ≤ 100) :
    0 ≤ pyRound1 q ∧ pyRound1 q ≤ 100 := by
  have hb : 0 ≤ roundHalfEven (10 * q) ∧ roundHalfEven (10 * q) ≤ 1000 := by
    refine roundHalfEven_bounds (by linarith) ?_
    push_cast
    linarith
  unfold pyRound1
  constructor
  · exact div_nonneg (by exact_mod_cast hb.1) (by norm_num)
  · rw [div_le_iff (by norm_num : (0 : ℚ) < 10)]
    have : ((roundHalfEven (10 * q) : ℤ) : ℚ) ≤ 1000 := by exact_mod_cast hb.2
    linarith

lemma pctExpr_bounds {c n : ℕ} (hn : 0 < n) (hc : c ≤ n) :
    0 ≤ 100 * (c : ℚ) / (n : ℚ) ∧ 100 * (c : ℚ) / (n : ℚ) ≤ 100 := by
  have hn' : (0 : ℚ) < n := by exact_mod_cast hn
  constructor
  · positivity
  · rw [div_le_iff hn']
    have : (c : ℚ) ≤ (n : ℚ) := by exact_mod_cast hc
    nlinarith

lemma pct_forms (c n : ℚ) : c / n * 100 = 100 * c / n := by
  ring

end Proofs

section Proofs2

attribute [local semireducible] Rat.inv Rat.mul Rat.add Rat.sub Rat.ofScientific

lemma specHot_bounds (s : Store) (doy : ℕ) : 0 ≤ specHot s doy ∧ specHot s doy ≤ 100 := by
  unfold specHot
  cases s.temperature with
  | none => norm_num
  | some series =>
    dsimp only
    by_cases h : (windowSubset series doy).length = 0
    · simp [h]
    · have hn : 0 < (windowSubset series doy).length := Nat.pos_of_ne_zero h
      rw [if_neg h]
      have hb := pctExpr_bounds (c := (windowSubset series doy).countP fun e => decide (90 < e.value))
        hn (List.countP_le_length _)
      exact pyRound1_bounds hb.1 hb.2

lemma specCold_bounds (s : Store) (doy : ℕ) : 0 ≤ specCold s doy ∧ specCold s doy ≤ 100 := by
  unfold specCold
  cases s.temperature with
  | none => norm_num
  | some series =>
    dsimp only
    by_cases h : (windowSubset series doy).length = 0
    · simp [h]
    · have hn : 0 < (windowSubset series doy).length := Nat.pos_of_ne_zero h
      rw [if_neg h]
      have hb := pctExpr_bounds (c := (windowSubset series doy).countP fun e => decide (e.value < 32))
        hn (List.countP_le_length _)
      exact pyRound1_bounds hb.1 hb.2

lemma specWet_bounds (s : Store) (doy : ℕ) : 0 ≤ specWet s doy ∧ specWet s doy ≤ 100 := by
  unfold specWet
  cases s.precipitation with
  | none => norm_num
  | some series =>
    dsimp only
    by_cases h : (windowSubset series doy).length = 0
    · simp [h]
    · have hn : 0 < (windowSubset series doy).length := Nat.pos_of_ne_zero h
      rw [if_neg h]
      have hb := pctExpr_bounds (c := (windowSubset series doy).countP fun e => decide (0.5 < e.value))
        hn (List.countP_le_length _)
      exact pyRound1_bounds hb.1 hb.2

lemma specWindy_bounds (s : Store) (doy : ℕ) : 0 ≤ specWindy s doy ∧ specWindy s doy ≤ 100 := by
  unfold specWindy
  cases s.wind with
  | none => norm_num
  | some series =>
    dsimp only
    by_cases h : (windowSubset series doy).length = 0
    · simp [h]
    · have hn : 0 < (windowSubset series doy).length := Nat.pos_of_ne_zero h
      rw [if_neg h]
      have hb := pctExpr_bounds (c := (windowSubset series doy).countP fun e => decide (15 < e.value))
        hn (List.countP_le_length _)
      exact pyRound1_bounds hb.1 hb.2

lemma specUnc_bounds (s : Store) (doy : ℕ) {q : ℚ} (h : specUnc s doy = some q) :
    0 ≤ q ∧ q ≤ 100 := by
  unfold specUnc at h
  rcases ht : s.temperature with _ | t <;> rw [ht] at h
  · dsimp only at h
    obtain rfl : (0 : ℚ) = q := by injection h
    norm_num
  · rcases hh : s.humidity with _ | hu <;> rw [hh] at h <;> dsimp only at h
    · obtain rfl : (0 : ℚ) = q := by injection h
      norm_num
    · by_cases hc : (windowSubset t doy).length = 0 ∨ (windowSubset hu doy).length = 0
      · rw [if_pos hc] at h
        obtain rfl : (0 : ℚ) = q := by injection h
        norm_num
      · rw [if_neg hc] at h
        by_cases hj : (heatIndexList (windowSubset t doy) (windowSubset hu doy)).length = 0
        · rw [if_pos hj] at h
          exact absurd h (by simp)
        · rw [if_neg hj] at h
          have hq : pyRound1 (100
              * (((heatIndexList (windowSubset t doy) (windowSubset hu doy)).countP
                  fun x => decide (85 < x) : ℕ) : ℚ)
              / ((heatIndexList (windowSubset t doy) (windowSubset hu doy)).length : ℚ)) = q := by
            injection h
          rw [← hq]
          have hb := pctExpr_bounds
            (c := (heatIndexList (windowSubset t doy) (windowSubset hu doy)).countP
              fun x => decide (85 < x))
            (Nat.pos_of_ne_zero hj) (List.countP_le_length _)
          exact pyRound1_bounds hb.1 hb.2

end Proofs2

section Proofs3

attribute [local semireducible] Rat.inv Rat.mul Rat.add Rat.sub Rat.ofScientific

lemma tempBlock_shape (s : Store) (doy : ℕ) :
    (tempBlock s doy = [] ∧ specHot s doy = 0 ∧ specCold s doy = 0)
    ∨ tempBlock s doy = [("hot", some (specHot s doy)), ("cold", some (specCold s doy))] := by
  unfold tempBlock specHot specCold
  cases s.temperature with
  | none => exact Or.inl ⟨rfl, rfl, rfl⟩
  | some series =>
    dsimp only
    by_cases h : 0 < (windowSubset series doy).length
    · refine Or.inr ?_
      rw [if_pos h, if_neg (by omega), if_neg (by omega)]
      unfold seriesMeanPct
      rw [pct_forms, pct_forms]
    · rw [if_neg h, if_pos (by omega), if_pos (by omega)]
      exact Or.inl ⟨rfl, rfl, rfl⟩

lemma precipBlock_shape (s : Store) (doy : ℕ) :
    (precipBlock s doy = [] ∧ specWet s doy = 0)
    ∨ precipBlock s doy = [("wet", some (specWet s doy))] := by
  unfold precipBlock specWet
  cases s.precipitation with
  | none => exact Or.inl ⟨rfl, rfl⟩
  | some series =>
    dsimp only
    by_cases h : 0 < (windowSubset series doy).length
    · refine Or.inr ?_
      rw [if_pos h, if_neg (by omega)]
      unfold seriesMeanPct
      rw [pct_forms]
    · rw [if_neg h, if_pos (by omega)]
      exact Or.inl ⟨rfl, rfl⟩

lemma windBlock_shape (s : Store) (doy : ℕ) :
    (windBlock s doy = [] ∧ specWindy s doy = 0)
    ∨ windBlock s doy = [("windy", some (specWindy s doy))] := by
  unfold windBlock specWindy
  cases s.wind with
  | none => exact Or.inl ⟨rfl, rfl⟩
  | some series =>
    dsimp only
    by_cases h : 0 < (windowSubset series doy).length
    · refine Or.inr ?_
      rw [if_pos h, if_neg (by omega)]
      unfold seriesMeanPct
      rw [pct_forms]
    · rw [if_neg h, if_pos (by omega)]
      exact Or.inl ⟨rfl, rfl⟩

lemma comfortBlock_shape (s : Store) (doy : ℕ) :
    (comfortBlock s doy = [] ∧ specUnc s doy = some 0)
    ∨ comfortBlock s doy = [("uncomfortable", specUnc s doy)] := by
  unfold comfortBlock specUnc
  rcases s.temperature with _ | t
  · exact Or.inl ⟨rfl, rfl⟩
  · rcases s.humidity with _ | hu
    · exact Or.inl ⟨rfl, rfl⟩
    · dsimp only
      by_cases hc : 0 < (windowSubset t doy).length ∧ 0 < (windowSubset hu doy).length
      · refine Or.inr ?_
        rw [if_pos hc, if_neg (by omega)]
        unfold heatMeanPct
        by_cases hj : (heatIndexList (windowSubset t doy) (windowSubset hu doy)).length = 0
        · rw [if_pos hj, if_pos hj]
          rfl
        · rw [if_neg hj, if_neg hj]
          rw [Option.map_some']
          rw [pct_forms]
      · rw [if_neg hc, if_pos (by omega)]
        exact Or.inl ⟨rfl, rfl⟩

end Proofs3

section Proofs4

attribute [local semireducible] Rat.inv Rat.mul Rat.add Rat.sub Rat.ofScientific

lemma calc_lookup_hot (s : Store) (doy : ℕ) :
    (calcCore s doy).lookup "hot" = some (some (specHot s doy)) := by
  unfold calcCore
  rcases tempBlock_shape s doy with ⟨ht, hh, hc⟩ | ht <;>
    rcases precipBlock_shape s doy with ⟨hp, hw⟩ | hp <;>
      rcases windBlock_shape s doy with ⟨hwd, hwy⟩ | hwd <;>
        rcases comfortBlock_shape s doy with ⟨hcb, hun⟩ | hcb <;>
          rw [ht, hp, hwd, hcb] <;>
            first
              | (rw [hh]; rfl)
              | rfl

lemma calc_lookup_cold (s : Store) (doy : ℕ) :
    (calcCore s doy).lookup "cold" = some (some (specCold s doy)) := by
  unfold calcCore
  rcases tempBlock_shape s doy with ⟨ht, hh, hc⟩ | ht <;>
    rcases precipBlock_shape s doy with ⟨hp, hw⟩ | hp <;>
      rcases windBlock_shape s doy with ⟨hwd, hwy⟩ | hwd <;>
        rcases comfortBlock_shape s doy with ⟨hcb, hun⟩ | hcb <;>
          rw [ht, hp, hwd, hcb] <;>
            first
              | (rw [hc]; rfl)
              | rfl

lemma calc_lookup_wet (s : Store) (doy : ℕ) :
    (calcCore s doy).lookup "wet" = some (some (specWet s doy)) := by
  unfold calcCore
  rcases tempBlock_shape s doy with ⟨ht, hh, hc⟩ | ht <;>
    rcases precipBlock_shape s doy with ⟨hp, hw⟩ | hp <;>
      rcases windBlock_shape s doy with ⟨hwd, hwy⟩ | hwd <;>
        rcases comfortBlock_shape s doy with ⟨hcb, hun⟩ | hcb <;>
          rw [ht, hp, hwd, hcb] <;>
            first
              | (rw [hw]; rfl)
              | rfl

lemma calc_lookup_windy (s : Store) (doy : ℕ) :
    (calcCore s doy).lookup "windy" = some (some (specWindy s doy)) := by
  unfold calcCore
  rcases tempBlock_shape s doy with ⟨ht, hh, hc⟩ | ht <;>
    rcases precipBlock_shape s doy with ⟨hp, hw⟩ | hp <;>
      rcases windBlock_shape s doy with ⟨hwd, hwy⟩ | hwd <;>
        rcases comfortBlock_shape s doy with ⟨hcb, hun⟩ | hcb <;>
          rw [ht, hp, hwd, hcb] <;>
            first
              | (rw [hwy]; rfl)
              | rfl

lemma calc_lookup_unc (s : Store) (doy : ℕ) :
    (calcCore s doy).lookup "uncomfortable" = some (specUnc s doy) := by
  unfold calcCore
  rcases tempBlock_shape s doy with ⟨ht, hh, hc⟩ | ht <;>
    rcases precipBlock_shape s doy with ⟨hp, hw⟩ | hp <;>
      rcases windBlock_shape s doy with ⟨hwd, hwy⟩ | hwd <;>
        rcases comfortBlock_shape s doy with ⟨hcb, hun⟩ | hcb <;>
          rw [ht, hp, hwd, hcb] <;>
            first
              | (rw [hun]; rfl)
              | rfl

lemma calc_keys_perm (s : Store) (doy : ℕ) :
    ((calcCore s doy).map Prod.fst).Perm expected_keys := by
  unfold calcCore
  rcases tempBlock_shape s doy with ⟨ht, hh, hc⟩ | ht <;>
    rcases precipBlock_shape s doy with ⟨hp, hw⟩ | hp <;>
      rcases windBlock_shape s doy with ⟨hwd, hwy⟩ | hwd <;>
        rcases comfortBlock_shape s doy with ⟨hcb, hun⟩ | hcb <;>
          rw [ht, hp, hwd, hcb] <;>
            exact List.isPerm_iff.mp (by rfl)

end Proofs4

section Proofs5

attribute [local semireducible] Rat.inv Rat.mul Rat.add Rat.sub Rat.ofScientific

lemma lookup_eq_none_of_not_mem_keys : ∀ {ps : ProbDict} {k : String},
    k ∉ ps.map Prod.fst → ps.lookup k = none
  | [], _, _ => rfl
  | (k1, _) :: t, k, h => by
    simp only [List.map_cons, List.mem_cons] at h
    push_neg at h
    have hb : (k == k1) = false := beq_eq_false_iff_ne.mpr h.1
    simp only [List.lookup, hb]
    exact lookup_eq_none_of_not_mem_keys h.2

lemma calc_lookup_other (s : Store) (doy : ℕ) {k : String} (hk : k ∉ expected_keys) :
    (calcCore s doy).lookup k = none := by
  apply lookup_eq_none_of_not_mem_keys
  intro hmem
  exact hk ((calc_keys_perm s doy).mem_iff.mp hmem)

lemma default_keys_perm : (defaultProbabilities.map Prod.fst).Perm expected_keys := by
  decide

lemma default_lookup {k : String} {v : Option ℚ} (h : defaultProbabilities.lookup k = some v) :
    v = some 0 := by
  simp only [defaultProbabilities, List.lookup] at h
  repeat' split at h
  all_goals simp_all

end Proofs5

section Proofs6

lemma daysInMonth_le (y m : ℕ) : daysInMonth y m ≤ 31 := by
  unfold daysInMonth
  split
  · split <;> norm_num
  · split <;> norm_num

lemma daysInMonth_pos (y m : ℕ) : 1 ≤ daysInMonth y m := by
  unfold daysInMonth
  split
  · split <;> norm_num
  · split <;> norm_num

lemma nextDay_mono {d : Date} (h : validDate d) :
    dateKey d < dateKey (nextDay d) ∧ validDate (nextDay d) := by
  obtain ⟨hm1, hm2, hd1, hd2⟩ := h
  have h31 := daysInMonth_le d.year d.month
  unfold nextDay dateKey validDate
  by_cases hlt : d.day < daysInMonth d.year d.month
  · rw [if_pos hlt]
    dsimp only
    refine ⟨by omega, ⟨hm1, hm2, by omega, by omega⟩⟩
  · rw [if_neg hlt]
    by_cases hm : d.month < 12
    · rw [if_pos hm]
      dsimp only
      have hp := daysInMonth_pos d.year (d.month + 1)
      exact ⟨by omega, ⟨by omega, by omega, le_refl 1, hp⟩⟩
    · rw [if_neg hm]
      dsimp only
      have hp := daysInMonth_pos (d.year + 1) 1
      exact ⟨by omega, ⟨le_refl 1, by omega, le_refl 1, hp⟩⟩

lemma dateRangeAux_bounds : ∀ (fuel : ℕ) (cur last : Date), validDate cur →
    ∀ d ∈ dateRangeAux fuel cur last, dateKey cur ≤ dateKey d ∧ dateKey d ≤ dateKey last := by
  intro fuel
  induction fuel with
  | zero => intro cur last _ d hd; simp [dateRangeAux] at hd
  | succ n ih =>
    intro cur last hv d hd
    rw [dateRangeAux] at hd
    by_cases hle : dateLe cur last = true
    · rw [if_pos hle] at hd
      have hkey : dateKey cur ≤ dateKey last := by
        have := of_decide_eq_true hle
        exact this
      rcases List.mem_cons.mp hd with rfl | hd2
      · exact ⟨le_refl _, hkey⟩
      · have hmono := nextDay_mono hv
        have := ih (nextDay cur) last hmono.2 d hd2
        exact ⟨le_trans (le_of_lt hmono.1) this.1, this.2⟩
    · rw [if_neg hle] at hd
      simp at hd

lemma foldl_processFile (files : List String) (h : Store) :
    files.foldl processFile h = h := by
  induction files with
  | nil => rfl
  | cons f t ih => simpa [processFile] using ih

lemma load_actual_never (files : List String) :
    (_load_actual_nasa_data files emptyStore).2 = false := by
  unfold _load_actual_nasa_data
  split
  · rfl
  · rw [foldl_processFile]
    rfl

end Proofs6

section Claims

attribute [local semireducible] Rat.inv Rat.mul Rat.add Rat.sub Rat.ofScientific

/-- Claim C2: for every store and valid target date, calculate_probabilities
computes over the day-of-year window pooled across all years: hot is 100
times the fraction of temperature entries above 90, cold 100 times the
fraction below 32, wet 100 times the fraction of precipitation entries
above 0.5, windy 100 times the fraction of wind entries above 15, each
rounded to one decimal, and an absent variable or empty window subset
leaves the key at 0.0 (these alternatives are the content of the
specification-side definitions specHot, specCold, specWet, specWindy). -/
theorem C2_exceedance_formulas (store : Store) (lat lng : ℚ) (s : String) (dt : Date)
    (h : parseDate s = some dt) :
    (calculate_probabilities store lat lng s).lookup "hot"
        = some (some (specHot store (dayOfYear dt)))
    ∧ (calculate_probabilities store lat lng s).lookup "cold"
        = some (some (specCold store (dayOfYear dt)))
    ∧ (calculate_probabilities store lat lng s).lookup "wet"
        = some (some (specWet store (dayOfYear dt)))
    ∧ (calculate_probabilities store lat lng s).lookup "windy"
        = some (some (specWindy store (dayOfYear dt))) := by
  unfold calculate_probabilities
  rw [h]
  exact ⟨calc_lookup_hot _ _, calc_lookup_cold _ _, calc_lookup_wet _ _, calc_lookup_windy _ _⟩

/-- Witness for C2 at a concrete store and date. -/
theorem C2_witness :
    (calculate_probabilities storeB 0 0 "2022-07-15").lookup "hot"
        = some (some (specHot storeB (dayOfYear ⟨2022, 7, 15⟩)))
    ∧ (calculate_probabilities storeB 0 0 "2022-07-15").lookup "cold"
        = some (some (specCold storeB (dayOfYear ⟨2022, 7, 15⟩)))
    ∧ (calculate_probabilities storeB 0 0 "2022-07-15").lookup "wet"
        = some (some (specWet storeB (dayOfYear ⟨2022, 7, 15⟩)))
    ∧ (calculate_probabilities storeB 0 0 "2022-07-15").lookup "windy"
        = some (some (specWindy storeB (dayOfYear ⟨2022, 7, 15⟩))) :=
  C2_exceedance_formulas storeB 0 0 "2022-07-15" ⟨2022, 7, 15⟩ (by decide)

/-- Claim C5: calculate_probabilities never propagates a failure: the only
fallible step of the try block on a well-typed store is strptime, and when
the target date fails to parse the except branch returns the all-zero
dictionary.  The operation is a total function by construction. -/
theorem C5_fail_soft (store : Store) (lat lng : ℚ) (s : String)
    (h : parseDate s = none) :
    calculate_probabilities store lat lng s = defaultProbabilities := by
  unfold calculate_probabilities
  rw [h]

/-- Witness for C5 on an unparseable date string. -/
theorem C5_witness :
    calculate_probabilities emptyStore 0 0 "not-a-date" = defaultProbabilities :=
  C5_fail_soft emptyStore 0 0 "not-a-date" (by decide)

/-- Claim C6: get_historical_trends returns years 2015 to 2024 (length 10)
with hot and wet sequences of the same length, each value obtained by
invoking calculate_probabilities at the sample date year-07-15 and reading
the hot respectively wet key. -/
theorem C6_trends (store : Store) (lat lng : ℚ) :
    (get_historical_trends store lat lng).years
        = [2015, 2016, 2017, 2018, 2019, 2020, 2021, 2022, 2023, 2024]
    ∧ (get_historical_trends store lat lng).years.length = 10
    ∧ (get_historical_trends store lat lng).hot_probabilities.length
        = (get_historical_trends store lat lng).years.length
    ∧ (get_historical_trends store lat lng).wet_probabilities.length
        = (get_historical_trends store lat lng).years.length
    ∧ (get_historical_trends store lat lng).hot_probabilities
        = (get_historical_trends store lat lng).years.map (fun year =>
            ((calculate_probabilities store lat lng (toString year ++ "-07-15")).lookup "hot").getD
              (some 0))
    ∧ (get_historical_trends store lat lng).wet_probabilities
        = (get_historical_trends store lat lng).years.map (fun year =>
            ((calculate_probabilities store lat lng (toString year ++ "-07-15")).lookup "wet").getD
              (some 0)) := by
  refine ⟨rfl, rfl, ?_, ?_, rfl, rfl⟩
  · simp [get_historical_trends]
  · simp [get_historical_trends]

/-- Claim C9: against a fixed store, calculate_probabilities is a pure
function of the store and the target date alone: the latitude and
longitude arguments are never read, so two calls differing only in them
yield identical results, and repetition with identical arguments trivially
yields identical results (no randomness exists in the estimation code or
its fallback dictionary). -/
theorem C9_location_independent (store : Store) (lat1 lng1 lat2 lng2 : ℚ) (target : String) :
    calculate_probabilities store lat1 lng1 target
      = calculate_probabilities store lat2 lng2 target := rfl

/-- Claim C10: calculate_probabilities reads the parsed target date only
through its day of year: two parseable date strings with equal day of year
produce identical results on any fixed store. -/
theorem C10_day_of_year_only (store : Store) (lat lng : ℚ) (s1 s2 : String) (d1 d2 : Date)
    (h1 : parseDate s1 = some d1) (h2 : parseDate s2 = some d2)
    (hdoy : dayOfYear d1 = dayOfYear d2) :
    calculate_probabilities store lat lng s1 = calculate_probabilities store lat lng s2 := by
  unfold calculate_probabilities
  rw [h1, h2]
  dsimp only
  rw [hdoy]

/-- Witness for C10: March 5 in two different non-leap years. -/
theorem C10_witness :
    calculate_probabilities storeB 0 0 "2019-03-05"
      = calculate_probabilities storeB 0 0 "2021-03-05" :=
  C10_day_of_year_only storeB 0 0 "2019-03-05" "2021-03-05" ⟨2019, 3, 5⟩ ⟨2021, 3, 5⟩
    (by decide) (by decide) (by decide)

end Claims

section Claims2

attribute [local semireducible] Rat.inv Rat.mul Rat.add Rat.sub Rat.ofScientific

/-- Counterexample to claim C1 as stated: with temperature and humidity
window subsets both nonempty but sharing no exact date, the merged frame
is empty, its mean is NaN, and the uncomfortable key is bound to NaN (the
none value in this embedding), which is not a number in the interval 0 to
100, so not every key is bound to such a number. -/
theorem C1_counterexample :
    (calculate_probabilities storeNaN 0 0 "2022-07-15").lookup "uncomfortable" = some none := by
  decide

/-- Claim C1 (amended): for every store, latitude, longitude and date
string, the result dictionary of calculate_probabilities holds exactly the
five keys hot, cold, wet, windy, uncomfortable; every value that is a
number lies in the interval 0 to 100; and only the uncomfortable key can
be bound to NaN (which happens exactly when both the temperature and
humidity window subsets are nonempty but their exact-date join is empty). -/
theorem C1_amended (store : Store) (lat lng : ℚ) (s : String) :
    ((calculate_probabilities store lat lng s).map Prod.fst).Perm expected_keys
    ∧ (∀ k q, (calculate_probabilities store lat lng s).lookup k = some (some q) →
        0 ≤ q ∧ q ≤ 100)
    ∧ (∀ k, (calculate_probabilities store lat lng s).lookup k = some none →
        k = "uncomfortable") := by
  unfold calculate_probabilities
  cases hp : parseDate s with
  | none =>
    refine ⟨default_keys_perm, ?_, ?_⟩
    · intro k q h
      have hv := default_lookup h
      obtain rfl : q = 0 := by injection hv
      norm_num
    · intro k h
      have hv := default_lookup h
      exact absurd hv (by simp)
  | some dt =>
    refine ⟨calc_keys_perm _ _, ?_, ?_⟩
    · intro k q h
      by_cases hk : k ∈ expected_keys
      · simp only [expected_keys, List.mem_cons, List.mem_singleton] at hk
        rcases hk with rfl | rfl | rfl | rfl | rfl | hk
        · have := (calc_lookup_hot store (dayOfYear dt)).symm.trans h
          obtain rfl : specHot store (dayOfYear dt) = q := by
            injection Option.some.inj this
          exact specHot_bounds _ _
        · have := (calc_lookup_cold store (dayOfYear dt)).symm.trans h
          obtain rfl : specCold store (dayOfYear dt) = q := by
            injection Option.some.inj this
          exact specCold_bounds _ _
        · have := (calc_lookup_wet store (dayOfYear dt)).symm.trans h
          obtain rfl : specWet store (dayOfYear dt) = q := by
            injection Option.some.inj this
          exact specWet_bounds _ _
        · have := (calc_lookup_windy store (dayOfYear dt)).symm.trans h
          obtain rfl : specWindy store (dayOfYear dt) = q := by
            injection Option.some.inj this
          exact specWindy_bounds _ _
        · have := (calc_lookup_unc store (dayOfYear dt)).symm.trans h
          exact specUnc_bounds store (dayOfYear dt) (Option.some.inj this)
        · exact absurd hk (by simp)
      · rw [calc_lookup_other store (dayOfYear dt) hk] at h
        exact Option.noConfusion h
    · intro k h
      by_cases hk : k ∈ expected_keys
      · simp only [expected_keys, List.mem_cons, List.mem_singleton] at hk
        rcases hk with rfl | rfl | rfl | rfl | rfl | hk
        · have := (calc_lookup_hot store (dayOfYear dt)).symm.trans h
          exact absurd (Option.some.inj this) (by simp)
        · have := (calc_lookup_cold store (dayOfYear dt)).symm.trans h
          exact absurd (Option.some.inj this) (by simp)
        · have := (calc_lookup_wet store (dayOfYear dt)).symm.trans h
          exact absurd (Option.some.inj this) (by simp)
        · have := (calc_lookup_windy store (dayOfYear dt)).symm.trans h
          exact absurd (Option.some.inj this) (by simp)
        · rfl
        · exact absurd hk (by simp)
      · rw [calc_lookup_other store (dayOfYear dt) hk] at h
        exact Option.noConfusion h

/-- Claim C3: the estimator selects exactly the series entries whose day
of year lies in the closed interval from doy - 7 to doy + 7, with no
wraparound at year boundaries; the target 2024-12-29 has day of year 364,
its window is 357 to 371, and entries with day of year 1 to 6 are
excluded even though they are within 7 calendar days. -/
theorem C3_window_selection :
    (∀ (series : List Entry) (doy : ℕ) (e : Entry),
        e ∈ windowSubset series doy
          ↔ e ∈ series ∧ ((doy : ℤ) - 7 ≤ (dayOfYear e.date : ℤ)
              ∧ (dayOfYear e.date : ℤ) ≤ (doy : ℤ) + 7))
    ∧ dayOfYear ⟨2024, 12, 29⟩ = 364
    ∧ (∀ (store : Store) (lat lng : ℚ),
        calculate_probabilities store lat lng "2024-12-29" = calcCore store 364)
    ∧ (∀ (series : List Entry) (e : Entry),
        1 ≤ dayOfYear e.date → dayOfYear e.date ≤ 6 →
          e ∉ windowSubset series (dayOfYear ⟨2024, 12, 29⟩)) := by
  have hmem : ∀ (series : List Entry) (doy : ℕ) (e : Entry),
      e ∈ windowSubset series doy
        ↔ e ∈ series ∧ ((doy : ℤ) - 7 ≤ (dayOfYear e.date : ℤ)
            ∧ (dayOfYear e.date : ℤ) ≤ (doy : ℤ) + 7) := by
    intro series doy e
    simp [windowSubset, inWindow, List.mem_filter]
  refine ⟨hmem, by decide, ?_, ?_⟩
  · intro store lat lng
    unfold calculate_probabilities
    rw [show parseDate "2024-12-29" = some ⟨2024, 12, 29⟩ from by decide]
    dsimp only
    rw [show dayOfYear ⟨2024, 12, 29⟩ = 364 from by decide]
  · intro series e h1 h6 hin
    have hmem2 := (hmem series (dayOfYear ⟨2024, 12, 29⟩) e).mp hin
    rw [show dayOfYear ⟨2024, 12, 29⟩ = 364 from by decide] at hmem2
    omega

/-- Witness for C3: a January 2 entry is excluded from the window of the
December 29 2024 target, despite being four calendar days away. -/
theorem C3_witness :
    (⟨⟨2024, 1, 2⟩, 50⟩ : Entry) ∉ windowSubset [⟨⟨2024, 1, 2⟩, 50⟩] (dayOfYear ⟨2024, 12, 29⟩) :=
  C3_window_selection.2.2.2 [⟨⟨2024, 1, 2⟩, 50⟩] ⟨⟨2024, 1, 2⟩, 50⟩ (by decide) (by decide)

end Claims2

section Claims3

attribute [local semireducible] Rat.inv Rat.mul Rat.add Rat.sub Rat.ofScientific

/-- Claim C4: the uncomfortable key requires both the temperature and
humidity variables with nonempty window subsets; the two subsets are inner
joined by exact date, the heat index temperature + 0.05 (humidity - 50)
is computed per joined row, and when the join is nonempty the key holds
100 times the fraction of joined rows with heat index above 85, rounded to
one decimal; when a variable is absent or a window subset is empty the key
stays at 0.0; when both subsets are nonempty but the join is empty the
pandas mean is NaN and the key is bound to NaN. -/
theorem C4_uncomfortable (store : Store) (lat lng : ℚ) (s : String) (dt : Date)
    (h : parseDate s = some dt) :
    ((store.temperature = none ∨ store.humidity = none) →
        (calculate_probabilities store lat lng s).lookup "uncomfortable" = some (some 0))
    ∧ (∀ t hu, store.temperature = some t → store.humidity = some hu →
        ((windowSubset t (dayOfYear dt)).length = 0
          ∨ (windowSubset hu (dayOfYear dt)).length = 0) →
        (calculate_probabilities store lat lng s).lookup "uncomfortable" = some (some 0))
    ∧ (∀ t hu, store.temperature = some t → store.humidity = some hu →
        0 < (windowSubset t (dayOfYear dt)).length →
        0 < (windowSubset hu (dayOfYear dt)).length →
        0 < (heatIndexList (windowSubset t (dayOfYear dt)) (windowSubset hu (dayOfYear dt))).length →
        (calculate_probabilities store lat lng s).lookup "uncomfortable"
          = some (some (pyRound1 (100
              * (((heatIndexList (windowSubset t (dayOfYear dt))
                    (windowSubset hu (dayOfYear dt))).countP fun x => decide (85 < x) : ℕ) : ℚ)
              / ((heatIndexList (windowSubset t (dayOfYear dt))
                    (windowSubset hu (dayOfYear dt))).length : ℚ)))))
    ∧ (∀ t hu, store.temperature = some t → store.humidity = some hu →
        0 < (windowSubset t (dayOfYear dt)).length →
        0 < (windowSubset hu (dayOfYear dt)).length →
        (heatIndexList (windowSubset t (dayOfYear dt)) (windowSubset hu (dayOfYear dt))).length = 0 →
        (calculate_probabilities store lat lng s).lookup "uncomfortable" = some none) := by
  unfold calculate_probabilities
  rw [h]
  dsimp only
  have hu := calc_lookup_unc store (dayOfYear dt)
  refine ⟨?_, ?_, ?_, ?_⟩
  · intro hnone
    rw [hu]
    unfold specUnc
    rcases hnone with h1 | h1
    · rw [h1]
    · rw [h1]
      cases store.temperature <;> rfl
  · intro t hum h1 h2 hempty
    rw [hu]
    unfold specUnc
    rw [h1, h2]
    dsimp only
    rw [if_pos hempty]
  · intro t hum h1 h2 hn1 hn2 hj
    rw [hu]
    unfold specUnc
    rw [h1, h2]
    dsimp only
    rw [if_neg (by omega), if_neg (by omega)]
  · intro t hum h1 h2 hn1 hn2 hj
    rw [hu]
    unfold specUnc
    rw [h1, h2]
    dsimp only
    rw [if_neg (by omega), if_pos hj]

/-- Witness for C4 at a concrete store whose join has one row with heat
index 96.5. -/
theorem C4_witness :
    (calculate_probabilities storeC 0 0 "2022-07-15").lookup "uncomfortable"
      = some (some (pyRound1 (100
          * (((heatIndexList (windowSubset [⟨⟨2020, 7, 15⟩, 95⟩] (dayOfYear ⟨2022, 7, 15⟩))
                (windowSubset [⟨⟨2020, 7, 15⟩, 80⟩] (dayOfYear ⟨2022, 7, 15⟩))).countP
                  fun x => decide (85 < x) : ℕ) : ℚ)
          / ((heatIndexList (windowSubset [⟨⟨2020, 7, 15⟩, 95⟩] (dayOfYear ⟨2022, 7, 15⟩))
                (windowSubset [⟨⟨2020, 7, 15⟩, 80⟩] (dayOfYear ⟨2022, 7, 15⟩))).length : ℚ)))) :=
  (C4_uncomfortable storeC 0 0 "2022-07-15" ⟨2022, 7, 15⟩ (by decide)).2.2.1
    [⟨⟨2020, 7, 15⟩, 95⟩] [⟨⟨2020, 7, 15⟩, 80⟩] rfl rfl (by decide) (by decide) (by decide)

end Claims3

section Claims4

attribute [local semireducible] Rat.inv Rat.mul Rat.add Rat.sub Rat.ofScientific

/-- Counterexample to claim C7 as stated: when the data directory does not
exist, load_nasa_data runs the legacy generator _generate_sample_data,
whose temperature series starts at 2010-01-01, while the Enhanced
Generator that the claim demands produces a series starting at 2008-01-01,
so the loaded store is not the enhanced one. -/
theorem C7_counterexample :
    (load_nasa_data envNoDir).temperature.map (fun l => l.head?.map Entry.date)
        = some (some ⟨2010, 1, 1⟩)
    ∧ (_generate_enhanced_sample_data zeroOracle).temperature.map
          (fun l => l.head?.map Entry.date)
        = some (some ⟨2008, 1, 1⟩) := by
  exact ⟨by decide, by decide⟩

/-- Claim C7 (amended): a missing data directory triggers the legacy
generator; an existing directory whose ingestion populates zero variables
(which this code always reports, since the stub handlers reference
undefined methods) triggers the full Enhanced Generator; each generator
populates all four variables unconditionally, the enhanced one over the
day range 2008-01-01 to 2023-12-31 and the legacy one over 2010-01-01 to
2024-12-31. -/
theorem C7_amended :
    (∀ env : LoadEnv, env.dirExists = false →
        load_nasa_data env = _generate_sample_data env.oracle)
    ∧ (∀ env : LoadEnv, env.dirExists = true →
        load_nasa_data env = _generate_enhanced_sample_data env.oracle)
    ∧ (∀ o : Oracle,
        (_generate_enhanced_sample_data o).temperature.map (List.map Entry.date)
            = some enhancedDates
        ∧ (_generate_enhanced_sample_data o).precipitation.map (List.map Entry.date)
            = some enhancedDates
        ∧ (_generate_enhanced_sample_data o).wind.map (List.map Entry.date)
            = some enhancedDates
        ∧ (_generate_enhanced_sample_data o).humidity.map (List.map Entry.date)
            = some enhancedDates)
    ∧ (∀ o : Oracle,
        (_generate_sample_data o).temperature.map (List.map Entry.date) = some legacyDates
        ∧ (_generate_sample_data o).precipitation.map (List.map Entry.date) = some legacyDates
        ∧ (_generate_sample_data o).wind.map (List.map Entry.date) = some legacyDates
        ∧ (_generate_sample_data o).humidity.map (List.map Entry.date) = some legacyDates)
    ∧ enhancedDates.head? = some ⟨2008, 1, 1⟩
    ∧ legacyDates.head? = some ⟨2010, 1, 1⟩
    ∧ (∀ d ∈ enhancedDates, dateKey ⟨2008, 1, 1⟩ ≤ dateKey d ∧ dateKey d ≤ dateKey ⟨2023, 12, 31⟩)
    ∧ (∀ d ∈ legacyDates, dateKey ⟨2010, 1, 1⟩ ≤ dateKey d ∧ dateKey d ≤ dateKey ⟨2024, 12, 31⟩) := by
  refine ⟨?_, ?_, ?_, ?_, by decide, by decide, ?_, ?_⟩
  · intro env h
    unfold load_nasa_data
    rw [h]
    rfl
  · intro env h
    unfold load_nasa_data
    rw [h, load_actual_never env.files]
    rfl
  · intro o
    refine ⟨?_, ?_, ?_, ?_⟩ <;>
      simp [_generate_enhanced_sample_data, List.map_map, Function.comp_def, List.enum_map_snd]
  · intro o
    refine ⟨?_, ?_, ?_, ?_⟩ <;>
      simp [_generate_sample_data, List.map_map, Function.comp_def, List.enum_map_snd]
  · exact dateRangeAux_bounds 6000 ⟨2008, 1, 1⟩ ⟨2023, 12, 31⟩ (by decide)
  · exact dateRangeAux_bounds 6000 ⟨2010, 1, 1⟩ ⟨2024, 12, 31⟩ (by decide)

/-- Witness for C7 at concrete environments: a missing directory yields
the legacy store, an existing directory yields the enhanced store. -/
theorem C7_witness :
    load_nasa_data envNoDir = _generate_sample_data zeroOracle
    ∧ load_nasa_data envWithFiles = _generate_enhanced_sample_data zeroOracle :=
  ⟨C7_amended.1 envNoDir rfl, C7_amended.2.1 envWithFiles rfl⟩

/-- Claim C8: every humidity value is clamped at generation time, to the
interval 15 to 95 by the enhanced profile and to the interval 10 to 100 by
the legacy profile. -/
theorem C8_humidity_clamp :
    (∀ (o : Oracle) (series : List Entry),
        (_generate_enhanced_sample_data o).humidity = some series →
        ∀ e ∈ series, 15 ≤ e.value ∧ e.value ≤ 95)
    ∧ (∀ (o : Oracle) (series : List Entry),
        (_generate_sample_data o).humidity = some series →
        ∀ e ∈ series, 10 ≤ e.value ∧ e.value ≤ 100) := by
  constructor
  · intro o series hs e he
    have hser : series = enhancedDates.enum.map fun p =>
        { date := p.2
          value := max 15 (min 95
            (if 150 ≤ dayOfYear p.2 ∧ dayOfYear p.2 ≤ 240 then o.humidity_normal p.1 75 8
             else o.humidity_normal p.1 65 12)) } := by
      have := hs.symm.trans rfl
      exact Option.some.inj this
    subst hser
    rcases List.mem_map.mp he with ⟨p, _, rfl⟩
    dsimp only
    exact ⟨le_max_left _ _, max_le (by norm_num) (min_le_left _ _)⟩
  · intro o series hs e he
    have hser : series = legacyDates.enum.map fun p =>
        { date := p.2
          value := max 10 (min 100
            (if p.2.month = 6 ∨ p.2.month = 7 ∨ p.2.month = 8 then o.humidity_normal p.1 75 10
             else o.humidity_normal p.1 60 15)) } := by
      have := hs.symm.trans rfl
      exact Option.some.inj this
    subst hser
    rcases List.mem_map.mp he with ⟨p, _, rfl⟩
    dsimp only
    exact ⟨le_max_left _ _, max_le (by norm_num) (min_le_left _ _)⟩

/-- Witness for C8 at the first generated humidity entries under the zero
oracle: the enhanced value is clamped to 15 and the legacy value to 10. -/
theorem C8_witness :
    (15 ≤ enhHumidityHead.value ∧ enhHumidityHead.value ≤ 95)
    ∧ (10 ≤ legHumidityHead.value ∧ legHumidityHead.value ≤ 100) :=
  ⟨C8_humidity_clamp.1 zeroOracle _ rfl enhHumidityHead (List.mem_of_mem_head? rfl),
   C8_humidity_clamp.2 zeroOracle _ rfl legHumidityHead (List.mem_of_mem_head? rfl)⟩

end Claims4

section Claims5

attribute [local semireducible] Rat.inv Rat.mul Rat.add Rat.sub Rat.ofScientific

/-- Witness for C1 (amended) at a concrete store: the key set is the five
expected keys and the concrete hot value 100 satisfies the range bound. -/
theorem C1_witness :
    ((calculate_probabilities storeC 0 0 "2022-07-15").map Prod.fst).Perm expected_keys
    ∧ (0 ≤ (100 : ℚ) ∧ (100 : ℚ) ≤ 100) :=
  ⟨(C1_amended storeC 0 0 "2022-07-15").1,
   (C1_amended storeC 0 0 "2022-07-15").2.1 "hot" 100 (by decide)⟩

end Claims5
